import Mathlib

/-!
Verification of the cashflow stress-testing engine (`src/model.py`, `src/simulate.py`).

Embedding conventions: Python floats are modelled as exact rationals `ℚ`;
functions that can raise a Python exception are modelled as `Except Err`
values, with one `Err` constructor per distinct raise site / exception kind.
Numeric tolerances (`1e-12`, `1e-8`) and decimal rounding are carried over
exactly as rational constants and exact half-even rounding (the rounding mode
of `np.round`).  The file is organised as: all definitions first, then all
lemmas and claim theorems.
-/

deriving instance DecidableEq for Except

namespace Cashflow

/-- Python exception kinds raised by the source code.
`interestNotPositive`, `stepNotPositive`, `ltvNotPositive`, `unknownPreset`
and `missingThetaFields` are the five distinct `ValueError` raise sites;
`zeroDivision` models Python's `ZeroDivisionError` on float division by zero;
`intConversion` models the `OverflowError` / `ValueError` that `int(...)`
raises on an infinite / NaN float (reached in `_frange` when `step == 0`). -/
inductive Err where
  | interestNotPositive
  | stepNotPositive
  | ltvNotPositive
  | unknownPreset
  | missingThetaFields
  | zeroDivision
  | intConversion
  deriving DecidableEq, Repr

/-- model.py: `net_operating_income(revenue, operating_cost_ratio)`. -/
def net_operating_income (revenue operating_cost_ratio : ℚ) : ℚ :=
  revenue * (1 - operating_cost_ratio)

/-- model.py: `interest_cost(interest_rate, debt_balance)`. -/
def interest_cost (interest_rate debt_balance : ℚ) : ℚ :=
  interest_rate * debt_balance

/-- model.py: `net_cashflow(revenue, operating_cost_ratio, interest_rate, debt_balance)`. -/
def net_cashflow (revenue operating_cost_ratio interest_rate debt_balance : ℚ) : ℚ :=
  revenue - revenue * operating_cost_ratio - interest_cost interest_rate debt_balance

/-- model.py: `dscr(revenue, operating_cost_ratio, interest_rate, debt_balance)`;
raises `ValueError` when the interest cost is not positive. -/
def dscr (revenue operating_cost_ratio interest_rate debt_balance : ℚ) : Except Err ℚ :=
  let interest := interest_cost interest_rate debt_balance
  if interest ≤ 0 then .error .interestNotPositive
  else .ok (revenue * (1 - operating_cost_ratio) / interest)

/-- model.py: `analytical_break_even_occupancy(interest_rate, operating_cost_ratio,
debt_balance, base_rent)`.  Pure rational division; Python would raise
`ZeroDivisionError` when `(1 - operating_cost_ratio) * base_rent == 0`, a case
excluded by the hypotheses of every theorem below that uses this function. -/
def analytical_break_even_occupancy
    (interest_rate operating_cost_ratio debt_balance base_rent : ℚ) : ℚ :=
  (interest_rate * debt_balance) / ((1 - operating_cost_ratio) * base_rent)

/-- model.py: `theta_from_yield_ltv(gross_yield, ltv)`; raises `ValueError`
when `ltv <= 0`. -/
def theta_from_yield_ltv (gross_yield ltv : ℚ) : Except Err ℚ :=
  if ltv ≤ 0 then .error .ltvNotPositive
  else .ok (gross_yield / ltv)

/-- The absolute tolerance `1e-12` used by both range generators. -/
def eps12 : ℚ := 1 / 1000000000000

/-- The absolute tolerance `1e-8` used by `_inclusive_arange` for the endpoint. -/
def tol8 : ℚ := 1 / 100000000

/-- Round-half-to-even to the nearest integer, the rounding mode of `np.round`. -/
def roundHalfEven (x : ℚ) : ℤ :=
  let f := ⌊x⌋
  if x - f < 1/2 then f
  else if x - f > 1/2 then f + 1
  else if f % 2 = 0 then f else f + 1

/-- `np.round(x, decimals)`: half-even rounding at a fixed decimal precision. -/
def roundDec (decimals : ℕ) (x : ℚ) : ℚ :=
  (roundHalfEven (x * 10 ^ decimals) : ℚ) / 10 ^ decimals

/-- Insert a value into an ascending-sorted list. -/
def insertSorted (x : ℚ) : List ℚ → List ℚ
  | [] => [x]
  | y :: ys => if x ≤ y then x :: y :: ys else y :: insertSorted x ys

/-- Ascending insertion sort. -/
def sortAsc (l : List ℚ) : List ℚ := l.foldr insertSorted []

/-- `np.unique`: the sorted list of distinct values. -/
def npUnique (l : List ℚ) : List ℚ := (sortAsc l).dedup

/-- model.py: `_inclusive_arange(start, stop, step, decimals)`.  Raises
`ValueError` for `step <= 0`; otherwise generates `start, start+step, ...`,
keeps the values `<= stop + 1e-12`, rounds to `decimals` decimals, falls back
to `[round(start)]` when empty, appends a rounded `stop` when the last value
is more than `1e-8` away from (and below) `stop`, and returns `np.unique` of
the result. -/
def inclusive_arange (start stop step : ℚ) (decimals : ℕ) : Except Err (List ℚ) :=
  if step ≤ 0 then .error .stepNotPositive
  else
    let n : ℤ := ⌊(stop - start) / step + eps12⌋ + 1
    let vals0 := (List.range n.toNat).map (fun i : ℕ => start + step * (i : ℚ))
    let vals1 := vals0.filter (fun v => v ≤ stop + eps12)
    let vals2 := vals1.map (roundDec decimals)
    let vals3 := if vals2 = [] then [roundDec decimals start] else vals2
    let vals4 :=
      match vals3.getLast? with
      | some last =>
        if |last - stop| > tol8 ∧ stop ≥ last + tol8 then vals3 ++ [roundDec decimals stop]
        else vals3
      | none => vals3
    .ok (npUnique vals4)

/-- simulate.py: `_frange(start, stop, step)`.  Unlike `_inclusive_arange` it
performs no step validation, no rounding and no endpoint append; it generates
`n = int(floor((stop-start)/step + 1e-12)) + 1` values and clips them to
`[min(start, stop), max(start, stop)]`.  For `step == 0` the float quotient is
infinite (or NaN when additionally `stop == start`) and the `int(...)`
conversion raises `OverflowError` (resp. `ValueError`), modelled here as the
`intConversion` error. -/
def frange (start stop step : ℚ) : Except Err (List ℚ) :=
  if step = 0 then .error .intConversion
  else
    let n : ℤ := ⌊(stop - start) / step + eps12⌋ + 1
    let vals := (List.range n.toNat).map (fun i : ℕ => start + step * (i : ℚ))
    .ok (vals.map (fun v => min (max v (min start stop)) (max start stop)))

/-- A `{start, stop, step}` grid specification. -/
structure RangeSpec where
  start : ℚ
  stop : ℚ
  step : ℚ
  deriving DecidableEq, Repr

/-- The configuration fields consumed by `run_stress_test` in simulate.py:
`base_cashflow.gross_annual_rent`, `base_cashflow.operating_cost_ratio`,
`interest_rate_stress.{start_bp, stop_bp, step_bp}` and
`revenue_stress.occupancy_range.{start, stop, step}`. -/
structure Assumptions where
  gross_annual_rent : ℚ
  operating_cost_ratio : ℚ
  interest_rate_stress : RangeSpec
  occupancy_range : RangeSpec
  deriving DecidableEq, Repr

/-- A calibration preset body: the three optional theta encodings plus the
optional per-preset occupancy-range override, as read by `select_calibration`
and `get_occupancy_grid` in simulate.py.  A `none` field models an absent key. -/
structure PresetCfg where
  rent_to_debt_ratio : Option ℚ
  gross_yield : Option ℚ
  ltv : Option ℚ
  annual_rent_gbp : Option ℚ
  mortgage_balance_gbp : Option ℚ
  occupancy_range_override : Option RangeSpec
  deriving DecidableEq, Repr

/-- simulate.py: `get_rate_shocks_bp(assumptions)`. -/
def get_rate_shocks_bp (a : Assumptions) : Except Err (List ℚ) :=
  let cfg := Assumptions.interest_rate_stress a
  frange cfg.start cfg.stop cfg.step

/-- simulate.py: `get_occupancy_grid(assumptions, preset_cfg)`: the preset's
`occupancy_range_override` replaces the global occupancy range when present. -/
def get_occupancy_grid (a : Assumptions) (preset_cfg : Option PresetCfg) :
    Except Err (List ℚ) :=
  let occ_cfg :=
    match preset_cfg with
    | some cfg =>
      match PresetCfg.occupancy_range_override cfg with
      | some ov => ov
      | none => Assumptions.occupancy_range a
    | none => Assumptions.occupancy_range a
  frange occ_cfg.start occ_cfg.stop occ_cfg.step

/-- The `calibration` section of the configuration: the declared default
preset name and the name-to-body mapping of presets. -/
structure Calibration where
  default_preset : Option String
  presets : List (String × PresetCfg)
  deriving DecidableEq, Repr

/-- Dictionary lookup of a preset name. -/
def findPreset : List (String × PresetCfg) → String → Option PresetCfg
  | [], _ => none
  | p :: rest, nm => if p.1 = nm then some p.2 else findPreset rest nm

/-- The theta-derivation chain of `select_calibration` in simulate.py: the
`if / elif / elif / else` ladder over the three encodings.  The divisions are
written directly (not via `theta_from_yield_ltv`), so there is no `ltv > 0`
check; a zero divisor raises Python's `ZeroDivisionError`. -/
def selectThetaFromCfg (cfg : PresetCfg) : Except Err ℚ :=
  match PresetCfg.rent_to_debt_ratio cfg with
  | some r => .ok r
  | none =>
    match PresetCfg.gross_yield cfg, PresetCfg.ltv cfg with
    | some gy, some l =>
      if l = 0 then .error .zeroDivision else .ok (gy / l)
    | _, _ =>
      match PresetCfg.annual_rent_gbp cfg, PresetCfg.mortgage_balance_gbp cfg with
      | some r, some b =>
        if b = 0 then .error .zeroDivision else .ok (r / b)
      | _, _ => .error .missingThetaFields

/-- simulate.py: `select_calibration(assumptions, preset_name)`.  Resolves the
requested (or default) preset name, fails with the unknown-preset `ValueError`
when it is not among the presets, and derives theta from the preset body. -/
def select_calibration (calib : Calibration) (preset_name : Option String) :
    Except Err (ℚ × String × PresetCfg) :=
  let resolved := match preset_name with
    | some nm => some nm
    | none => Calibration.default_preset calib
  match resolved with
  | none => .error .unknownPreset
  | some nm =>
    match findPreset (Calibration.presets calib) nm with
    | none => .error .unknownPreset
    | some cfg =>
      match selectThetaFromCfg cfg with
      | .error e => .error e
      | .ok theta => .ok (theta, nm, cfg)

/-- simulate.py, `run_stress_test` line `debt = rent / float(theta)`. -/
def impliedDebt (rent theta : ℚ) : ℚ := rent / theta

/-- simulate.py, `run_stress_test` line `revenue = rent * float(occ)`. -/
def cellRevenue (rent occ : ℚ) : ℚ := rent * occ

/-- One row of the stress result table. -/
structure StressRow where
  interest_rate : ℚ
  rate_shock_bp : ℚ
  occupancy_multiplier : ℚ
  net_cashflow : ℚ
  dscr : ℚ
  deriving DecidableEq, Repr

/-- Sequential effectful map over a list: the first error aborts the whole
computation, exactly like an uncaught exception inside the Python loop. -/
def mapExcept {α β : Type} (f : α → Except Err β) : List α → Except Err (List β)
  | [] => .ok []
  | a :: as =>
    match f a with
    | .error e => .error e
    | .ok b =>
      match mapExcept f as with
      | .error e => .error e
      | .ok bs => .ok (b :: bs)

/-- The Cartesian iteration order of the nested loop in `run_stress_test`:
occupancy outer, rate shock inner. -/
def gridCells (occ_grid shocks_bp : List ℚ) : List (ℚ × ℚ) :=
  occ_grid.flatMap (fun occ => shocks_bp.map (fun shock => (occ, shock)))

/-- The body of the nested loop in `run_stress_test` for one
`(occupancy, shock)` cell: effective rate, revenue, net cashflow, DSCR, and
the result row. -/
def evalCell (rent opex_ratio base_rate debt : ℚ) (cell : ℚ × ℚ) :
    Except Err StressRow :=
  let r := base_rate + cell.2 / 10000
  let revenue := cellRevenue rent cell.1
  let cf := net_cashflow revenue opex_ratio r debt
  match dscr revenue opex_ratio r debt with
  | .error e => .error e
  | .ok d => .ok ⟨r, cell.2, cell.1, cf, d⟩

/-- simulate.py: `run_stress_test(assumptions, base_rate, theta, preset_cfg)`.
Derives `debt = rent / theta` once (Python raises `ZeroDivisionError` when
`theta == 0`), resolves the two grids, and evaluates every cell of their
Cartesian product into one row each; any cell failure aborts the whole run. -/
def run_stress_test (a : Assumptions) (base_rate theta : ℚ)
    (preset_cfg : Option PresetCfg) : Except Err (List StressRow) :=
  if theta = 0 then .error .zeroDivision
  else
    let rent := Assumptions.gross_annual_rent a
    let debt := impliedDebt rent theta
    match get_rate_shocks_bp a with
    | .error e => .error e
    | .ok shocks_bp =>
      match get_occupancy_grid a preset_cfg with
      | .error e => .error e
      | .ok occ_grid =>
        mapExcept (evalCell rent (Assumptions.operating_cost_ratio a) base_rate debt)
          (gridCells occ_grid shocks_bp)

/-! ## Theorems -/

/-! ### Helper lemmas about the engine -/

lemma dscr_error_or_ok (revenue opex_ratio rate debt : ℚ) :
    dscr revenue opex_ratio rate debt = .error .interestNotPositive ∨
    ∃ v, dscr revenue opex_ratio rate debt = .ok v := by
  simp only [dscr]
  split
  · exact Or.inl rfl
  · exact Or.inr ⟨_, rfl⟩

lemma evalCell_ok_iff (rent opex_ratio base_rate debt : ℚ) (cell : ℚ × ℚ)
    (row : StressRow) :
    evalCell rent opex_ratio base_rate debt cell = .ok row ↔
    ∃ d, dscr (cellRevenue rent cell.1) opex_ratio (base_rate + cell.2 / 10000) debt = .ok d ∧
      row = ⟨base_rate + cell.2 / 10000, cell.2, cell.1,
        net_cashflow (cellRevenue rent cell.1) opex_ratio (base_rate + cell.2 / 10000) debt,
        d⟩ := by
  simp only [evalCell]
  cases hd : dscr (cellRevenue rent cell.1) opex_ratio (base_rate + cell.2 / 10000) debt with
  | error e => simp
  | ok d =>
    simp only [Except.ok.injEq]
    constructor
    · intro h
      exact ⟨d, rfl, h.symm⟩
    · rintro ⟨d', hd', rfl⟩
      rw [hd']

lemma dscr_ok_of_pos (revenue opex_ratio rate debt : ℚ) (h : 0 < rate * debt) :
    dscr revenue opex_ratio rate debt = .ok (revenue * (1 - opex_ratio) / (rate * debt)) := by
  simp only [dscr, interest_cost, if_neg (not_le.mpr h)]

lemma evalCell_eval (rent opex_ratio base_rate debt occ shock d : ℚ)
    (hd : dscr (cellRevenue rent occ) opex_ratio (base_rate + shock / 10000) debt = .ok d) :
    evalCell rent opex_ratio base_rate debt (occ, shock) =
      .ok ⟨base_rate + shock / 10000, shock, occ,
        net_cashflow (cellRevenue rent occ) opex_ratio (base_rate + shock / 10000) debt,
        d⟩ := by
  simp only [evalCell, hd]

lemma evalCell_error_or_ok (rent opex_ratio base_rate debt : ℚ) (cell : ℚ × ℚ) :
    evalCell rent opex_ratio base_rate debt cell = .error .interestNotPositive ∨
    ∃ row, evalCell rent opex_ratio base_rate debt cell = .ok row := by
  rcases dscr_error_or_ok (cellRevenue rent cell.1) opex_ratio (base_rate + cell.2 / 10000)
      debt with he | ⟨v, hv⟩
  · exact Or.inl (by simp only [evalCell, he])
  · exact Or.inr ⟨⟨base_rate + cell.2 / 10000, cell.2, cell.1,
      net_cashflow (cellRevenue rent cell.1) opex_ratio (base_rate + cell.2 / 10000) debt, v⟩,
      by simp only [evalCell, hv]⟩

lemma evalCell_error_of (rent opex_ratio base_rate debt : ℚ) (cell : ℚ × ℚ)
    (h : (base_rate + cell.2 / 10000) * debt ≤ 0) :
    evalCell rent opex_ratio base_rate debt cell = .error .interestNotPositive := by
  have hd : dscr (cellRevenue rent cell.1) opex_ratio (base_rate + cell.2 / 10000) debt =
      .error .interestNotPositive := by
    simp only [dscr, interest_cost, if_pos h]
  simp only [evalCell, hd]

lemma mapExcept_ok_length {α β : Type} {f : α → Except Err β} :
    ∀ {l : List α} {t : List β}, mapExcept f l = .ok t → t.length = l.length := by
  intro l
  induction l with
  | nil =>
    intro t h
    simp only [mapExcept, Except.ok.injEq] at h
    subst h
    rfl
  | cons a as ih =>
    intro t h
    simp only [mapExcept] at h
    cases hfa : f a with
    | error e => rw [hfa] at h; exact Except.noConfusion h
    | ok b =>
      rw [hfa] at h
      cases hm : mapExcept f as with
      | error e => rw [hm] at h; exact Except.noConfusion h
      | ok bs =>
        rw [hm] at h
        simp only [Except.ok.injEq] at h
        subst h
        simp [ih hm]

lemma mapExcept_mem_source {α β : Type} {f : α → Except Err β} :
    ∀ {l : List α} {t : List β}, mapExcept f l = .ok t → ∀ b ∈ t, ∃ a ∈ l, f a = .ok b := by
  intro l
  induction l with
  | nil =>
    intro t h b hb
    simp only [mapExcept, Except.ok.injEq] at h
    subst h
    exact absurd hb (List.not_mem_nil b)
  | cons a as ih =>
    intro t h b hb
    simp only [mapExcept] at h
    cases hfa : f a with
    | error e => rw [hfa] at h; exact Except.noConfusion h
    | ok b0 =>
      rw [hfa] at h
      cases hm : mapExcept f as with
      | error e => rw [hm] at h; exact Except.noConfusion h
      | ok bs =>
        rw [hm] at h
        simp only [Except.ok.injEq] at h
        subst h
        rcases List.mem_cons.mp hb with hb0 | hbs
        · exact ⟨a, List.mem_cons_self a as, hb0 ▸ hfa⟩
        · obtain ⟨a1, ha1, hfa1⟩ := ih hm b hbs
          exact ⟨a1, List.mem_cons_of_mem a ha1, hfa1⟩

lemma mapExcept_map_back {α β : Type} {f : α → Except Err β} {g : β → α}
    (hg : ∀ a b, f a = .ok b → g b = a) :
    ∀ {l : List α} {t : List β}, mapExcept f l = .ok t → t.map g = l := by
  intro l
  induction l with
  | nil =>
    intro t h
    simp only [mapExcept, Except.ok.injEq] at h
    subst h
    rfl
  | cons a as ih =>
    intro t h
    simp only [mapExcept] at h
    cases hfa : f a with
    | error e => rw [hfa] at h; exact Except.noConfusion h
    | ok b =>
      rw [hfa] at h
      cases hm : mapExcept f as with
      | error e => rw [hm] at h; exact Except.noConfusion h
      | ok bs =>
        rw [hm] at h
        simp only [Except.ok.injEq] at h
        subst h
        simp only [List.map_cons, ih hm, hg a b hfa]

lemma mapExcept_error_of_mem {α β : Type} {f : α → Except Err β} {c : Err}
    (hall : ∀ a, f a = .error c ∨ ∃ b, f a = .ok b) :
    ∀ {l : List α}, (∃ a ∈ l, f a = .error c) → mapExcept f l = .error c := by
  intro l
  induction l with
  | nil =>
    rintro ⟨a, ha, _⟩
    exact absurd ha (List.not_mem_nil a)
  | cons a as ih =>
    rintro ⟨a0, ha0, herr⟩
    simp only [mapExcept]
    rcases List.mem_cons.mp ha0 with rfl | hmem
    · rw [herr]
    · rcases hall a with he | ⟨b, hb⟩
      · rw [he]
      · rw [hb, ih ⟨a0, hmem, herr⟩]

lemma length_gridCells (occ_grid shocks_bp : List ℚ) :
    (gridCells occ_grid shocks_bp).length = occ_grid.length * shocks_bp.length := by
  induction occ_grid with
  | nil => simp [gridCells]
  | cons o os ih =>
    simp only [gridCells, List.flatMap_cons, List.length_append, List.length_map,
      List.length_cons] at *
    rw [ih]
    ring

lemma mem_gridCells {occ_grid shocks_bp : List ℚ} {c : ℚ × ℚ} :
    c ∈ gridCells occ_grid shocks_bp ↔ c.1 ∈ occ_grid ∧ c.2 ∈ shocks_bp := by
  simp only [gridCells, List.mem_flatMap, List.mem_map]
  constructor
  · rintro ⟨o, ho, s, hs, rfl⟩
    exact ⟨ho, hs⟩
  · rintro ⟨h1, h2⟩
    exact ⟨c.1, h1, c.2, h2, rfl⟩

lemma nodup_gridCells {occ_grid shocks_bp : List ℚ}
    (h1 : occ_grid.Nodup) (h2 : shocks_bp.Nodup) :
    (gridCells occ_grid shocks_bp).Nodup := by
  induction occ_grid with
  | nil => simp [gridCells]
  | cons o os ih =>
    obtain ⟨hno, hos⟩ := List.nodup_cons.mp h1
    simp only [gridCells, List.flatMap_cons]
    rw [List.nodup_append]
    refine ⟨h2.map fun a b hab => ?_, ih hos, ?_⟩
    · exact ((Prod.mk.injEq o a o b).mp hab).2
    · intro p hp hq
      obtain ⟨s, _, rfl⟩ := List.mem_map.mp hp
      have := (mem_gridCells.mp hq).1
      exact hno this

lemma nodup_of_length_le_one {l : List ℚ} (h : l.length ≤ 1) : l.Nodup := by
  match l with
  | [] => exact List.nodup_nil
  | [a] => simp
  | a :: b :: t => simp at h

lemma nodup_map_range_of_ne {g : ℕ → ℚ} {m : ℕ}
    (hne : ∀ i j, j < m → i < j → g i ≠ g j) :
    ((List.range m).map g).Nodup := by
  refine List.Nodup.map_on ?_ (List.nodup_range m)
  intro i hi j hj hij
  rcases Nat.lt_trichotomy i j with h | h | h
  · exact absurd hij (hne i j (List.mem_range.mp hj) h)
  · exact h
  · exact absurd hij.symm (hne j i (List.mem_range.mp hi) h)

lemma select_calibration_singleton (nm : String) (cfg : PresetCfg) :
    select_calibration ⟨some nm, [(nm, cfg)]⟩ none =
      match selectThetaFromCfg cfg with
      | .error e => .error e
      | .ok theta => .ok (theta, nm, cfg) := by
  simp [select_calibration, findPreset]

lemma selectThetaFromCfg_direct (cfg : PresetCfg) (v : ℚ)
    (hv : PresetCfg.rent_to_debt_ratio cfg = some v) :
    selectThetaFromCfg cfg = .ok v := by
  simp [selectThetaFromCfg, hv]

lemma selectThetaFromCfg_yield_ltv (cfg : PresetCfg) (gy l : ℚ)
    (h0 : PresetCfg.rent_to_debt_ratio cfg = none)
    (hgy : PresetCfg.gross_yield cfg = some gy)
    (hltv : PresetCfg.ltv cfg = some l) (hl : l ≠ 0) :
    selectThetaFromCfg cfg = .ok (gy / l) := by
  simp [selectThetaFromCfg, h0, hgy, hltv, hl]

lemma selectThetaFromCfg_rent_balance (cfg : PresetCfg) (r b : ℚ)
    (h0 : PresetCfg.rent_to_debt_ratio cfg = none)
    (hor : PresetCfg.gross_yield cfg = none ∨ PresetCfg.ltv cfg = none)
    (hr : PresetCfg.annual_rent_gbp cfg = some r)
    (hb : PresetCfg.mortgage_balance_gbp cfg = some b) (hbne : b ≠ 0) :
    selectThetaFromCfg cfg = .ok (r / b) := by
  rcases hor with hno | hno
  · simp [selectThetaFromCfg, h0, hno, hr, hb, hbne]
  · rcases hgy : PresetCfg.gross_yield cfg with _ | gy2
    · simp [selectThetaFromCfg, h0, hgy, hr, hb, hbne]
    · simp [selectThetaFromCfg, h0, hgy, hno, hr, hb, hbne]

lemma selectThetaFromCfg_missing (cfg : PresetCfg)
    (h0 : PresetCfg.rent_to_debt_ratio cfg = none)
    (hor1 : PresetCfg.gross_yield cfg = none ∨ PresetCfg.ltv cfg = none)
    (hor2 : PresetCfg.annual_rent_gbp cfg = none ∨
      PresetCfg.mortgage_balance_gbp cfg = none) :
    selectThetaFromCfg cfg = .error .missingThetaFields := by
  rcases hor1 with hno | hno
  · rcases hor2 with hno2 | hno2
    · simp [selectThetaFromCfg, h0, hno, hno2]
    · rcases hrent : PresetCfg.annual_rent_gbp cfg with _ | r
      · simp [selectThetaFromCfg, h0, hno, hrent]
      · simp [selectThetaFromCfg, h0, hno, hrent, hno2]
  · rcases hgy : PresetCfg.gross_yield cfg with _ | gy
    · rcases hor2 with hno2 | hno2
      · simp [selectThetaFromCfg, h0, hgy, hno2]
      · rcases hrent : PresetCfg.annual_rent_gbp cfg with _ | r
        · simp [selectThetaFromCfg, h0, hgy, hrent]
        · simp [selectThetaFromCfg, h0, hgy, hrent, hno2]
    · rcases hor2 with hno2 | hno2
      · simp [selectThetaFromCfg, h0, hgy, hno, hno2]
      · rcases hrent : PresetCfg.annual_rent_gbp cfg with _ | r
        · simp [selectThetaFromCfg, h0, hgy, hno, hrent]
        · simp [selectThetaFromCfg, h0, hgy, hno, hrent, hno2]

lemma frange_ok_nodup {start stop step : ℚ} {l : List ℚ}
    (h : frange start stop step = .ok l) : l.Nodup := by
  by_cases hz : step = 0
  · simp [frange, hz] at h
  · simp only [frange, if_neg hz, Except.ok.injEq] at h
    subst h
    set x : ℚ := (stop - start) / step with hxdef
    set n : ℤ := ⌊x + eps12⌋ + 1 with hn
    have heps1 : eps12 < (1 : ℚ) := by norm_num [eps12]
    have heps0 : (0 : ℚ) < eps12 := by norm_num [eps12]
    have hxstep : x * step = stop - start := div_mul_cancel₀ _ hz
    have hjx : ∀ j : ℕ, j < n.toNat → (j : ℚ) ≤ x + eps12 := by
      intro j hj
      have h1 : (j : ℤ) < n := Int.lt_toNat.mp hj
      have h2 : (j : ℤ) ≤ ⌊x + eps12⌋ := by omega
      calc (j : ℚ) ≤ (⌊x + eps12⌋ : ℚ) := by exact_mod_cast h2
        _ ≤ x + eps12 := Int.floor_le _
    have hix : ∀ i j : ℕ, j < n.toNat → i < j → (i : ℚ) < x := by
      intro i j hj hij
      have h1 : (i : ℚ) + 1 ≤ (j : ℚ) := by exact_mod_cast hij
      have h2 := hjx j hj
      linarith
    rcases lt_or_le x 0 with hxneg | hxpos
    · -- degenerate direction: at most one generated value
      have h1 : ⌊x + eps12⌋ < 1 := Int.floor_lt.mpr (by push_cast; linarith)
      have h2 : n.toNat ≤ 1 := by omega
      apply nodup_of_length_le_one
      simpa using h2
    · rw [List.map_map]
      apply nodup_map_range_of_ne
      intro i j hj hij
      have hix' := hix i j hj hij
      have hijq : (i : ℚ) < (j : ℚ) := by exact_mod_cast hij
      simp only [Function.comp]
      rcases lt_or_gt_of_ne hz with hneg | hpos
      · -- negative step: strictly decreasing values, clipped at most once
        have hss : stop ≤ start := by
          have h0 := mul_nonneg hxpos (neg_nonneg.mpr hneg.le)
          rw [mul_neg] at h0
          linarith
        have hvi_le : start + step * (i : ℚ) ≤ start := by
          have h0 := mul_nonneg (neg_nonneg.mpr hneg.le) (Nat.cast_nonneg i)
          rw [neg_mul] at h0
          linarith
        have hvi_gt : stop < start + step * (i : ℚ) := by
          have h2 : step * x < step * (i : ℚ) := mul_lt_mul_of_neg_left hix' hneg
          have h3 : step * x = stop - start := by rw [mul_comm]; exact hxstep
          linarith
        have hij2 : start + step * (j : ℚ) < start + step * (i : ℚ) := by
          have h3 : step * (j : ℚ) < step * (i : ℚ) := mul_lt_mul_of_neg_left hijq hneg
          linarith
        rw [min_eq_right hss, max_eq_left hss, max_eq_left hvi_gt.le,
          min_eq_left hvi_le]
        have hlt : min (max (start + step * (j : ℚ)) stop) start < start + step * (i : ℚ) :=
          lt_of_le_of_lt (min_le_left _ _) (max_lt hij2 hvi_gt)
        exact ne_of_gt hlt
      · -- positive step: strictly increasing values below the clip bound
        have hse : start ≤ stop := by
          have h0 := mul_nonneg hxpos hpos.le
          linarith [hxstep]
        have histart : start ≤ start + step * (i : ℚ) := by
          have h0 := mul_nonneg hpos.le (Nat.cast_nonneg i)
          linarith
        have hjstart : start ≤ start + step * (j : ℚ) := by
          have h0 := mul_nonneg hpos.le (Nat.cast_nonneg j)
          linarith
        have histop : start + step * (i : ℚ) < stop := by
          have h2 : step * (i : ℚ) < step * x := (mul_lt_mul_left hpos).mpr hix'
          have h3 : step * x = stop - start := by rw [mul_comm]; exact hxstep
          linarith
        have hij2 : start + step * (i : ℚ) < start + step * (j : ℚ) := by
          have h3 : step * (i : ℚ) < step * (j : ℚ) := (mul_lt_mul_left hpos).mpr hijq
          linarith
        rw [min_eq_left hse, max_eq_right hse, max_eq_left histart, max_eq_left hjstart,
          min_eq_left histop.le]
        exact ne_of_lt (lt_min hij2 histop)

lemma get_rate_shocks_bp_ok_nodup {a : Assumptions} {shocks : List ℚ}
    (h : get_rate_shocks_bp a = .ok shocks) : shocks.Nodup := by
  simp only [get_rate_shocks_bp] at h
  exact frange_ok_nodup h

lemma get_occupancy_grid_ok_nodup {a : Assumptions} {pc : Option PresetCfg}
    {occs : List ℚ} (h : get_occupancy_grid a pc = .ok occs) : occs.Nodup := by
  rcases pc with _ | cfg
  · simp only [get_occupancy_grid] at h
    exact frange_ok_nodup h
  · rcases hov : PresetCfg.occupancy_range_override cfg with _ | ov <;>
      simp only [get_occupancy_grid, hov] at h <;> exact frange_ok_nodup h

/-- C1: `dscr(revenue, opex_ratio, rate, debt)` fails with the invalid-input
error if and only if `rate * debt ≤ 0`; when `rate * debt > 0` it returns
exactly `revenue * (1 - opex_ratio) / (rate * debt)` (an exact rational, so
never an infinity or a sign-flipped value). -/
theorem C1_dscr_invalid_iff (revenue opex_ratio rate debt : ℚ) :
    ((∃ e, dscr revenue opex_ratio rate debt = .error e) ↔ rate * debt ≤ 0) ∧
    (0 < rate * debt →
      dscr revenue opex_ratio rate debt = .ok (revenue * (1 - opex_ratio) / (rate * debt))) := by
  constructor
  · constructor
    · rintro ⟨e, he⟩
      by_contra hpos
      rw [not_le] at hpos
      simp only [dscr, interest_cost, if_neg (not_le.mpr hpos)] at he
      exact Except.noConfusion he
    · intro hle
      exact ⟨.interestNotPositive, by simp only [dscr, interest_cost, if_pos hle]⟩
  · intro hpos
    simp only [dscr, interest_cost, if_neg (not_le.mpr hpos)]

/-- Witness for C1 at concrete inputs: with `rate * debt = 50 > 0`,
`dscr 100 (1/2) (1/20) 1000` returns the stated quotient. -/
theorem C1_dscr_invalid_iff_witness :
    dscr 100 (1/2) (1/20) 1000 = .ok (100 * (1 - 1/2) / ((1/20) * 1000)) :=
  (C1_dscr_invalid_iff 100 (1/2) (1/20) 1000).2 (by norm_num)

/-- C2: for `rate * debt > 0`, `opex_ratio < 1` and `base_rent > 0`, evaluating
`dscr` at `revenue = base_rent * analytical_break_even_occupancy(rate, opex_ratio,
debt, base_rent)` yields exactly `1`: the closed-form break-even occupancy is
precisely the occupancy at which DSCR crosses 1 for that rate. -/
theorem C2_break_even_dscr_one (rate opex_ratio debt base_rent : ℚ)
    (hrd : 0 < rate * debt) (hc : opex_ratio < 1) (hr : 0 < base_rent) :
    dscr (base_rent * analytical_break_even_occupancy rate opex_ratio debt base_rent)
      opex_ratio rate debt = .ok 1 := by
  have h1c : (1 : ℚ) - opex_ratio ≠ 0 := (sub_pos.mpr hc).ne'
  have hrne : base_rent ≠ 0 := hr.ne'
  have hrdne : rate * debt ≠ 0 := hrd.ne'
  simp only [dscr, interest_cost, if_neg (not_le.mpr hrd),
    analytical_break_even_occupancy]
  congr 1
  field_simp
  ring

/-- Witness for C2 at the end-to-end calibration numbers
(rate 5%, opex ratio 0.35, debt 1.2M, rent 120000). -/
theorem C2_break_even_dscr_one_witness :
    dscr (120000 * analytical_break_even_occupancy (1/20) (7/20) 1200000 120000)
      (7/20) (1/20) 1200000 = .ok 1 :=
  C2_break_even_dscr_one (1/20) (7/20) 1200000 120000
    (by norm_num) (by norm_num) (by norm_num)

/-- C10: whenever `rate * debt > 0` (so `dscr` returns a value `d`),
`net_cashflow > 0 ↔ d > 1` and `net_cashflow = 0 ↔ d = 1`: the cashflow
break-even boundary and the DSCR = 1 boundary coincide. -/
theorem C10_cashflow_dscr_boundary (revenue opex_ratio rate debt d : ℚ)
    (hrd : 0 < rate * debt)
    (hok : dscr revenue opex_ratio rate debt = .ok d) :
    (0 < net_cashflow revenue opex_ratio rate debt ↔ 1 < d) ∧
    (net_cashflow revenue opex_ratio rate debt = 0 ↔ d = 1) := by
  simp only [dscr, interest_cost, if_neg (not_le.mpr hrd), Except.ok.injEq] at hok
  subst hok
  have hnoi : revenue * (1 - opex_ratio) = revenue - revenue * opex_ratio := by ring
  constructor
  · rw [lt_div_iff₀ hrd, one_mul, net_cashflow, interest_cost, ← hnoi]
    constructor
    · intro h; linarith
    · intro h; linarith
  · rw [div_eq_one_iff_eq hrd.ne', net_cashflow, interest_cost, ← hnoi]
    constructor
    · intro h; linarith
    · intro h; linarith

/-- Witness for C10 at concrete inputs: interest 50, NOI 50, so cashflow is 0
and DSCR is exactly 1. -/
theorem C10_cashflow_dscr_boundary_witness :
    net_cashflow 100 (1/2) (1/20) 1000 = 0 ↔ (1 : ℚ) = 1 :=
  (C10_cashflow_dscr_boundary 100 (1/2) (1/20) 1000 1 (by norm_num)
    (by with_unfolding_all decide)).2

/-- C3 (code bug): model.py's `_inclusive_arange` does include the endpoint
`stop` as last element even when `stop - start` is not a multiple of `step`
(`{0,100,10}` gives the 11 values `0..100`, `{0,95,10}` gives `0,...,90,95`),
but simulate.py's `_frange` — the grid generation actually used by
`run_stress_test` — silently drops the non-aligned endpoint: `{0,95,10}`
yields only `0,...,90`, contradicting both the claim and `_frange`'s own
`inclusive stop` comment. -/
theorem C3_endpoint_inclusion :
    inclusive_arange 0 100 10 10 = .ok [0, 10, 20, 30, 40, 50, 60, 70, 80, 90, 100] ∧
    inclusive_arange 0 95 10 10 = .ok [0, 10, 20, 30, 40, 50, 60, 70, 80, 90, 95] ∧
    frange 0 100 10 = .ok [0, 10, 20, 30, 40, 50, 60, 70, 80, 90, 100] ∧
    frange 0 95 10 = .ok [0, 10, 20, 30, 40, 50, 60, 70, 80, 90] := by
  refine ⟨?_, ?_, ?_, ?_⟩ <;> with_unfolding_all decide

/-- C8 (code bug): model.py's `_inclusive_arange` fails with the invalid-input
error for `step ≤ 0`, but simulate.py's `_frange` — used by `run_stress_test`
— performs no step validation: a negative step silently yields a decreasing
grid (or an empty one), never an invalid-input error. -/
theorem C8_step_validation :
    inclusive_arange 0 100 (-10) 10 = .error .stepNotPositive ∧
    inclusive_arange 0 100 0 10 = .error .stepNotPositive ∧
    frange 100 0 (-10) = .ok [100, 90, 80, 70, 60, 50, 40, 30, 20, 10, 0] ∧
    frange 0 100 (-10) = .ok [] := by
  refine ⟨?_, ?_, ?_, ?_⟩ <;> with_unfolding_all decide

/-- C9 (code bug): model.py's `theta_from_yield_ltv` does return
`gross_yield / ltv` for `ltv > 0` and fail with the invalid-input error for
`ltv ≤ 0`; but `select_calibration` in simulate.py divides directly without
the guard, so a preset with `gross_yield = 0.06, ltv = -0.5` silently
resolves to the negative theta `-0.12` instead of failing. -/
theorem C9_ltv_guard :
    theta_from_yield_ltv (3/50) (3/5) = .ok (1/10) ∧
    theta_from_yield_ltv (3/50) (-1/2) = .error .ltvNotPositive ∧
    theta_from_yield_ltv (3/50) 0 = .error .ltvNotPositive ∧
    select_calibration
      ⟨some ("p"), [(("p"), ⟨none, some (3/50), some (-1/2), none, none, none⟩)]⟩ none =
      .ok (-3/25, ("p"), ⟨none, some (3/50), some (-1/2), none, none, none⟩) := by
  refine ⟨?_, ?_, ?_, ?_⟩ <;> with_unfolding_all decide

/-- C4: `run_stress_test` with rent 120000, opex ratio 0.35, base rate 0.05
and theta 0.1 derives `debt = rent / theta = 1200000`; in every successful
run, the row at rate shock 0 bp and occupancy multiplier 1.0 has revenue
`120000 * 1 = 120000`, interest rate 0.05, net cashflow
`120000 - 42000 - 60000 = 18000` and DSCR `(120000 * 0.65) / 60000 = 1.3`. -/
theorem C4_end_to_end (rs occ : RangeSpec) (t : List StressRow)
    (ht : run_stress_test ⟨120000, 7/20, rs, occ⟩ (1/20) (1/10) none = .ok t) :
    impliedDebt 120000 (1/10) = 1200000 ∧
    cellRevenue 120000 1 = 120000 ∧
    ∀ row ∈ t, StressRow.rate_shock_bp row = 0 → StressRow.occupancy_multiplier row = 1 →
      StressRow.interest_rate row = 1/20 ∧ StressRow.net_cashflow row = 18000 ∧
      StressRow.dscr row = 13/10 := by
  refine ⟨by norm_num [impliedDebt], by norm_num [cellRevenue], ?_⟩
  intro row hrow h0 h1
  simp only [run_stress_test] at ht
  rw [if_neg (by norm_num : ¬(1/10 : ℚ) = 0)] at ht
  cases hs : get_rate_shocks_bp ⟨120000, 7/20, rs, occ⟩ with
  | error e => rw [hs] at ht; exact Except.noConfusion ht
  | ok shocks =>
    rw [hs] at ht
    cases hoc : get_occupancy_grid ⟨120000, 7/20, rs, occ⟩ none with
    | error e => rw [hoc] at ht; exact Except.noConfusion ht
    | ok occs =>
      rw [hoc] at ht
      obtain ⟨cell, hcell, hok⟩ := mapExcept_mem_source ht row hrow
      rw [evalCell_ok_iff] at hok
      obtain ⟨d, hd, hroweq⟩ := hok
      obtain ⟨co, cs⟩ := cell
      subst hroweq
      have hcs : cs = 0 := h0
      have hco : co = 1 := h1
      subst hcs
      subst hco
      have hd3 : dscr (cellRevenue 120000 1) (7/20) ((1 : ℚ)/20 + 0 / 10000)
          (impliedDebt 120000 (1/10)) = .ok d := hd
      have hd2 : dscr (cellRevenue 120000 1) (7/20) ((1 : ℚ)/20 + 0 / 10000)
          (impliedDebt 120000 (1/10)) = .ok (13/10) := by
        rw [dscr_ok_of_pos _ _ _ _ (by norm_num [impliedDebt])]
        norm_num [cellRevenue, impliedDebt, Except.ok.injEq]
      refine ⟨by norm_num, ?_, ?_⟩
      · show net_cashflow (cellRevenue 120000 1) (7/20) ((1 : ℚ)/20 + 0 / 10000)
          (impliedDebt 120000 (1/10)) = 18000
        norm_num [net_cashflow, cellRevenue, interest_cost, impliedDebt]
      · show d = 13/10
        rw [hd2] at hd3
        exact (Except.ok.injEq _ _).mp hd3.symm

/-- Witness for C4: the one-cell run with shock grid `{0,0,1}` and occupancy
grid `{1,1,1}` succeeds and its single row carries exactly the claimed
numbers. -/
theorem C4_end_to_end_witness :
    impliedDebt 120000 (1/10) = 1200000 ∧
    cellRevenue 120000 1 = 120000 ∧
    StressRow.interest_rate ⟨1/20, 0, 1, 18000, 13/10⟩ = 1/20 ∧
    StressRow.net_cashflow ⟨1/20, 0, 1, 18000, 13/10⟩ = 18000 ∧
    StressRow.dscr ⟨1/20, 0, 1, 18000, 13/10⟩ = 13/10 := by
  have hs : get_rate_shocks_bp ⟨120000, 7/20, ⟨0, 0, 1⟩, ⟨1, 1, 1⟩⟩ = .ok [0] := by
    with_unfolding_all decide
  have ho : get_occupancy_grid ⟨120000, 7/20, ⟨0, 0, 1⟩, ⟨1, 1, 1⟩⟩ none = .ok [1] := by
    with_unfolding_all decide
  have hdv : dscr (cellRevenue 120000 1) (7/20) ((1 : ℚ)/20 + (0 : ℚ) / 10000)
      (impliedDebt 120000 (1/10)) = .ok (13/10) := by
    rw [dscr_ok_of_pos _ _ _ _ (by norm_num [impliedDebt])]
    norm_num [cellRevenue, impliedDebt, Except.ok.injEq]
  have hrow : (⟨(1 : ℚ)/20 + (0 : ℚ) / 10000, 0, 1,
      net_cashflow (cellRevenue 120000 1) (7/20) ((1 : ℚ)/20 + (0 : ℚ) / 10000)
        (impliedDebt 120000 (1/10)), 13/10⟩ : StressRow) = ⟨1/20, 0, 1, 18000, 13/10⟩ := by
    simp only [StressRow.mk.injEq]
    norm_num [net_cashflow, cellRevenue, interest_cost, impliedDebt]
  have hcell : evalCell 120000 (7/20) (1/20) (impliedDebt 120000 (1/10)) (1, 0) =
      .ok ⟨1/20, 0, 1, 18000, 13/10⟩ :=
    (evalCell_eval 120000 (7/20) (1/20) (impliedDebt 120000 (1/10)) 1 0 (13/10) hdv).trans
      (congrArg Except.ok hrow)
  have hcells : gridCells [1] [0] = [((1 : ℚ), (0 : ℚ))] := by
    with_unfolding_all decide
  have hrun : run_stress_test ⟨120000, 7/20, ⟨0, 0, 1⟩, ⟨1, 1, 1⟩⟩ (1/20) (1/10) none =
      .ok [⟨1/20, 0, 1, 18000, 13/10⟩] := by
    simp only [run_stress_test, hs, ho]
    rw [if_neg (by norm_num : ¬(1/10 : ℚ) = 0), hcells]
    simp only [mapExcept, hcell]
  have h := C4_end_to_end ⟨0, 0, 1⟩ ⟨1, 1, 1⟩ [⟨1/20, 0, 1, 18000, 13/10⟩] hrun
  exact ⟨h.1, h.2.1, h.2.2 _ (List.mem_singleton.mpr rfl) rfl rfl⟩

/-- C5: every successful run of `run_stress_test` returns exactly
`len(rate_shock_grid) * len(occupancy_grid)` rows — one per cell of the
Cartesian product of the two resolved grids — and no two rows share the same
`(rate_shock_bp, occupancy_multiplier)` pair. -/
theorem C5_table_shape (a : Assumptions) (base_rate theta : ℚ) (pc : Option PresetCfg)
    (shocks occs : List ℚ) (t : List StressRow)
    (hs : get_rate_shocks_bp a = .ok shocks)
    (ho : get_occupancy_grid a pc = .ok occs)
    (ht : run_stress_test a base_rate theta pc = .ok t) :
    t.length = shocks.length * occs.length ∧
    (t.map (fun row =>
      (StressRow.rate_shock_bp row, StressRow.occupancy_multiplier row))).Nodup := by
  by_cases htheta : theta = 0
  · rw [run_stress_test.eq_def, if_pos htheta] at ht
    exact Except.noConfusion ht
  · simp only [run_stress_test, hs, ho] at ht
    rw [if_neg htheta] at ht
    constructor
    · rw [mapExcept_ok_length ht, length_gridCells, Nat.mul_comm]
    · have hg : ∀ cell row,
          evalCell (Assumptions.gross_annual_rent a) (Assumptions.operating_cost_ratio a)
            base_rate (impliedDebt (Assumptions.gross_annual_rent a) theta) cell = .ok row →
          (fun row => (StressRow.occupancy_multiplier row, StressRow.rate_shock_bp row)) row
            = cell := by
        intro cell row hok
        rw [evalCell_ok_iff] at hok
        obtain ⟨d, _, rfl⟩ := hok
        rfl
      have hmap := mapExcept_map_back hg ht
      have hnodup : ((t.map fun row =>
          (StressRow.occupancy_multiplier row, StressRow.rate_shock_bp row))).Nodup := by
        rw [hmap]
        exact nodup_gridCells (get_occupancy_grid_ok_nodup ho) (get_rate_shocks_bp_ok_nodup hs)
      have hswap : (t.map (fun row =>
          (StressRow.rate_shock_bp row, StressRow.occupancy_multiplier row))) =
          (t.map fun row =>
            (StressRow.occupancy_multiplier row, StressRow.rate_shock_bp row)).map Prod.swap := by
        rw [List.map_map]
        rfl
      rw [hswap]
      exact hnodup.map Prod.swap_injective

/-- Witness for C5: the concrete run with shock grid `[0, 100]` and occupancy
grid `[1]` yields a 2-row table with distinct `(shock, occupancy)` pairs. -/
theorem C5_table_shape_witness :
    ([⟨1/20, 0, 1, 18000, 13/10⟩, ⟨3/50, 100, 1, 6000, 13/12⟩] : List StressRow).length =
      ([0, 100] : List ℚ).length * ([1] : List ℚ).length ∧
    (([⟨1/20, 0, 1, 18000, 13/10⟩, ⟨3/50, 100, 1, 6000, 13/12⟩] : List StressRow).map
      (fun row => (StressRow.rate_shock_bp row, StressRow.occupancy_multiplier row))).Nodup := by
  have hs : get_rate_shocks_bp ⟨120000, 7/20, ⟨0, 100, 100⟩, ⟨1, 1, 1⟩⟩ = .ok [0, 100] := by
    with_unfolding_all decide
  have ho : get_occupancy_grid ⟨120000, 7/20, ⟨0, 100, 100⟩, ⟨1, 1, 1⟩⟩ none = .ok [1] := by
    with_unfolding_all decide
  have hdv1 : dscr (cellRevenue 120000 1) (7/20) ((1 : ℚ)/20 + (0 : ℚ) / 10000)
      (impliedDebt 120000 (1/10)) = .ok (13/10) := by
    rw [dscr_ok_of_pos _ _ _ _ (by norm_num [impliedDebt])]
    norm_num [cellRevenue, impliedDebt, Except.ok.injEq]
  have hdv2 : dscr (cellRevenue 120000 1) (7/20) ((1 : ℚ)/20 + (100 : ℚ) / 10000)
      (impliedDebt 120000 (1/10)) = .ok (13/12) := by
    rw [dscr_ok_of_pos _ _ _ _ (by norm_num [impliedDebt])]
    norm_num [cellRevenue, impliedDebt, Except.ok.injEq]
  have hrow1 : (⟨(1 : ℚ)/20 + (0 : ℚ) / 10000, 0, 1,
      net_cashflow (cellRevenue 120000 1) (7/20) ((1 : ℚ)/20 + (0 : ℚ) / 10000)
        (impliedDebt 120000 (1/10)), 13/10⟩ : StressRow) = ⟨1/20, 0, 1, 18000, 13/10⟩ := by
    simp only [StressRow.mk.injEq]
    norm_num [net_cashflow, cellRevenue, interest_cost, impliedDebt]
  have hrow2 : (⟨(1 : ℚ)/20 + (100 : ℚ) / 10000, 100, 1,
      net_cashflow (cellRevenue 120000 1) (7/20) ((1 : ℚ)/20 + (100 : ℚ) / 10000)
        (impliedDebt 120000 (1/10)), 13/12⟩ : StressRow) = ⟨3/50, 100, 1, 6000, 13/12⟩ := by
    simp only [StressRow.mk.injEq]
    norm_num [net_cashflow, cellRevenue, interest_cost, impliedDebt]
  have hcell1 : evalCell 120000 (7/20) (1/20) (impliedDebt 120000 (1/10)) (1, 0) =
      .ok ⟨1/20, 0, 1, 18000, 13/10⟩ :=
    (evalCell_eval 120000 (7/20) (1/20) (impliedDebt 120000 (1/10)) 1 0 (13/10) hdv1).trans
      (congrArg Except.ok hrow1)
  have hcell2 : evalCell 120000 (7/20) (1/20) (impliedDebt 120000 (1/10)) (1, 100) =
      .ok ⟨3/50, 100, 1, 6000, 13/12⟩ :=
    (evalCell_eval 120000 (7/20) (1/20) (impliedDebt 120000 (1/10)) 1 100 (13/12) hdv2).trans
      (congrArg Except.ok hrow2)
  have hcells : gridCells [1] [0, 100] = [((1 : ℚ), (0 : ℚ)), ((1 : ℚ), (100 : ℚ))] := by
    with_unfolding_all decide
  have hrun : run_stress_test ⟨120000, 7/20, ⟨0, 100, 100⟩, ⟨1, 1, 1⟩⟩ (1/20) (1/10) none =
      .ok [⟨1/20, 0, 1, 18000, 13/10⟩, ⟨3/50, 100, 1, 6000, 13/12⟩] := by
    simp only [run_stress_test, hs, ho]
    rw [if_neg (by norm_num : ¬(1/10 : ℚ) = 0), hcells]
    simp only [mapExcept, hcell1, hcell2]
  exact C5_table_shape ⟨120000, 7/20, ⟨0, 100, 100⟩, ⟨1, 1, 1⟩⟩ (1/20) (1/10) none
    [0, 100] [1] [⟨1/20, 0, 1, 18000, 13/10⟩, ⟨3/50, 100, 1, 6000, 13/12⟩] hs ho hrun

/-- C6: if the resolved grids contain a cell whose effective rate
`base_rate + shock/10000` is not positive (while the derived debt is
positive), `run_stress_test` fails for the whole run with the DSCR
invalid-input error: no row is coerced to NaN or zero and no partial table is
returned. -/
theorem C6_degenerate_rate_aborts (a : Assumptions) (base_rate theta : ℚ)
    (pc : Option PresetCfg) (shocks occs : List ℚ)
    (hs : get_rate_shocks_bp a = .ok shocks)
    (ho : get_occupancy_grid a pc = .ok occs)
    (htheta : theta ≠ 0)
    (hdebt : 0 < impliedDebt (Assumptions.gross_annual_rent a) theta)
    (hbad : ∃ s ∈ shocks, base_rate + s / 10000 ≤ 0)
    (hocc : occs ≠ []) :
    run_stress_test a base_rate theta pc = .error .interestNotPositive := by
  obtain ⟨s, hsmem, hrate⟩ := hbad
  obtain ⟨o, homem⟩ := List.exists_mem_of_ne_nil occs hocc
  simp only [run_stress_test, hs, ho]
  rw [if_neg htheta]
  apply mapExcept_error_of_mem
  · intro cell
    exact evalCell_error_or_ok (Assumptions.gross_annual_rent a)
      (Assumptions.operating_cost_ratio a) base_rate
      (impliedDebt (Assumptions.gross_annual_rent a) theta) cell
  · refine ⟨(o, s), mem_gridCells.mpr ⟨homem, hsmem⟩, ?_⟩
    apply evalCell_error_of
    calc (base_rate + s / 10000) * impliedDebt (Assumptions.gross_annual_rent a) theta
        ≤ 0 * impliedDebt (Assumptions.gross_annual_rent a) theta :=
          mul_le_mul_of_nonneg_right hrate hdebt.le
      _ = 0 := zero_mul _

/-- Witness for C6: with base rate 1% and shock grid `[-200, -100, 0]`, the
shock of -200 bp drives the effective rate to -1% and the whole run fails
with the DSCR invalid-input error. -/
theorem C6_degenerate_rate_aborts_witness :
    run_stress_test ⟨120000, 7/20, ⟨-200, 0, 100⟩, ⟨1, 1, 1⟩⟩ (1/100) (1/10) none =
      .error .interestNotPositive :=
  C6_degenerate_rate_aborts ⟨120000, 7/20, ⟨-200, 0, 100⟩, ⟨1, 1, 1⟩⟩ (1/100) (1/10) none
    [-200, -100, 0] [1]
    (by with_unfolding_all decide) (by with_unfolding_all decide)
    (by norm_num) (by norm_num [impliedDebt])
    ⟨-200, by with_unfolding_all decide, by norm_num⟩
    (by with_unfolding_all decide)

/-- C7: calibration resolution derives theta by first-match-wins precedence:
a direct `rent_to_debt_ratio` field wins over everything; otherwise a
`gross_yield`/`ltv` pair gives `gross_yield / ltv` regardless of any
rent/balance fields (the division requires a nonzero `ltv`; `ltv = 0` raises
Python's `ZeroDivisionError`, see C9); otherwise an `annual_rent_gbp`/
`mortgage_balance_gbp` pair gives `rent / balance`; and when none of the
three encodings is present resolution fails with the missing-field error
naming all three encodings. -/
theorem C7_theta_precedence (cfg : PresetCfg) (nm : String) :
    (∀ v, PresetCfg.rent_to_debt_ratio cfg = some v →
      select_calibration ⟨some nm, [(nm, cfg)]⟩ none = .ok (v, nm, cfg)) ∧
    (∀ gy l, PresetCfg.rent_to_debt_ratio cfg = none →
      PresetCfg.gross_yield cfg = some gy → PresetCfg.ltv cfg = some l → l ≠ 0 →
      select_calibration ⟨some nm, [(nm, cfg)]⟩ none = .ok (gy / l, nm, cfg)) ∧
    (∀ r b, PresetCfg.rent_to_debt_ratio cfg = none →
      (PresetCfg.gross_yield cfg = none ∨ PresetCfg.ltv cfg = none) →
      PresetCfg.annual_rent_gbp cfg = some r →
      PresetCfg.mortgage_balance_gbp cfg = some b → b ≠ 0 →
      select_calibration ⟨some nm, [(nm, cfg)]⟩ none = .ok (r / b, nm, cfg)) ∧
    (PresetCfg.rent_to_debt_ratio cfg = none →
      (PresetCfg.gross_yield cfg = none ∨ PresetCfg.ltv cfg = none) →
      (PresetCfg.annual_rent_gbp cfg = none ∨
        PresetCfg.mortgage_balance_gbp cfg = none) →
      select_calibration ⟨some nm, [(nm, cfg)]⟩ none = .error .missingThetaFields) := by
  refine ⟨?_, ?_, ?_, ?_⟩
  · intro v hv
    rw [select_calibration_singleton, selectThetaFromCfg_direct cfg v hv]
  · intro gy l h0 hgy hltv hl
    rw [select_calibration_singleton, selectThetaFromCfg_yield_ltv cfg gy l h0 hgy hltv hl]
  · intro r b h0 hor hr hb hbne
    rw [select_calibration_singleton, selectThetaFromCfg_rent_balance cfg r b h0 hor hr hb hbne]
  · intro h0 hor1 hor2
    rw [select_calibration_singleton, selectThetaFromCfg_missing cfg h0 hor1 hor2]

/-- Witness for C7: a preset carrying all three encodings resolves to the
direct ratio 0.08, ignoring the yield/LTV pair (which would give 0.1) and the
rent/balance pair. -/
theorem C7_theta_precedence_witness :
    select_calibration
      ⟨some ("base"),
        [(("base"), ⟨some (2/25), some (3/50), some (3/5), some 9600, some 120000, none⟩)]⟩
      none =
      .ok (2/25, ("base"),
        ⟨some (2/25), some (3/50), some (3/5), some 9600, some 120000, none⟩) :=
  (C7_theta_precedence
    ⟨some (2/25), some (3/50), some (3/5), some 9600, some 120000, none⟩ ("base")).1
    (2/25) rfl

end Cashflow
